import Mathlib

/-!
Verification of the error taxonomy module of the `irc` crate
(`src/error.rs`).  The enums `Error`, `ConfigError` and `TomlError`, the
thiserror-generated `Display` rendering and `source` accessors, and the
`From` conversion impls are embedded as Lean definitions; external error
types (from `std`, `futures_channel`, `native_tls`, `toml`, `serde_json`,
`serde_yaml`) are modelled as opaque payload-carrying structures, since
only their identity matters to this module.
-/

namespace Irc

/-- Opaque model of `std::io::Error`: only its identity matters here. -/
structure IoError where
  payload : String
deriving DecidableEq, Repr

/-- Opaque model of `native_tls::Error`. -/
structure TlsError where
  payload : String
deriving DecidableEq, Repr

/-- Model of `std::sync::mpsc::RecvError`, a unit struct in Rust. -/
structure RecvError where
deriving DecidableEq, Repr

/-- The two ways a `futures_channel` mpsc send can fail. -/
inductive SendErrorKind where
  | full
  | disconnected
deriving DecidableEq, Repr

/-- Model of `futures_channel::mpsc::SendError`, a struct holding a kind. -/
structure SendError where
  kind : SendErrorKind
deriving DecidableEq, Repr

/-- Model of `futures_channel::mpsc::TrySendError<T>`: a send error together
with the value that could not be sent. -/
structure TrySendError (T : Type) where
  err : SendError
  val : T

/-- Model of `TrySendError::into_send_error`, which drops the unsent value
and returns the underlying `SendError`. -/
def TrySendError.into_send_error {T : Type} (e : TrySendError T) : SendError :=
  e.err

/-- Model of `futures_channel::oneshot::Canceled`, a unit struct in Rust. -/
structure Canceled where
deriving DecidableEq, Repr

/-- Modelled from the spec: the protocol parse failure cause carried by
invalid-message failures.  Its declaration lives in `crate::proto::error`,
outside the given sources, and this module treats it opaquely. -/
structure MessageParseError where
  payload : String
deriving DecidableEq, Repr

/-- Modelled from the spec: the protocol layer raises a two-case failure,
either I/O-caused or parse-caused-with-raw-string.  Its declaration lives
in `crate::proto::error`, outside the given sources; the two constructors
and their fields are exactly those matched by `From<ProtocolError> for
Error` in `src/error.rs`. -/
inductive ProtocolError where
  | Io (e : IoError)
  | InvalidMessage (string : String) (cause : MessageParseError)
deriving DecidableEq, Repr

/-- Opaque model of `toml::de::Error`. -/
structure TomlDeError where
  payload : String
deriving DecidableEq, Repr

/-- Opaque model of `toml::ser::Error`. -/
structure TomlSerError where
  payload : String
deriving DecidableEq, Repr

/-- Opaque model of `serde_json::Error`. -/
structure JsonError where
  payload : String
deriving DecidableEq, Repr

/-- Opaque model of `serde_yaml::Error`. -/
structure YamlError where
  payload : String
deriving DecidableEq, Repr

/-- A wrapper that combines toml serialization and deserialization errors
(`TomlError` in `src/error.rs`). -/
inductive TomlError where
  | Read (cause : TomlDeError)
  | Write (cause : TomlSerError)
deriving DecidableEq, Repr

/-- Errors that occur with configurations (`ConfigError` in
`src/error.rs`).  The three per-format variants are feature-gated in the
source; this embedding covers the build with all formats enabled. -/
inductive ConfigError where
  | InvalidToml (cause : TomlError)
  | InvalidJson (cause : JsonError)
  | InvalidYaml (cause : YamlError)
  | ConfigFormatDisabled (format : String)
  | UnknownConfigFormat (format : String)
  | MissingExtension
  | NicknameNotSpecified
  | ServerNotSpecified
deriving DecidableEq, Repr

/-- The main crate-wide error type (`Error` in `src/error.rs`). -/
inductive Error where
  | Io (cause : IoError)
  | Tls (cause : TlsError)
  | SyncChannelClosed (cause : RecvError)
  | AsyncChannelClosed (cause : SendError)
  | OneShotCanceled (cause : Canceled)
  | InvalidConfig (path : String) (cause : ConfigError)
  | InvalidMessage (string : String) (cause : MessageParseError)
  | PoisonedLog
  | PingTimeout
  | UnknownCodec (codec : String)
  | CodecFailed (codec : String) (data : String)
  | NoUsableNick
  | StreamAlreadyConfigured
deriving DecidableEq, Repr

/-- The `Display` rendering of `TomlError`, generated by thiserror from the
per-variant error attribute strings. -/
def TomlError.display : TomlError → String
  | .Read _ => "deserialization failed"
  | .Write _ => "serialization failed"

/-- The `Display` rendering of `ConfigError`, generated by thiserror from
the per-variant error attribute strings. -/
def ConfigError.display : ConfigError → String
  | .InvalidToml _ => "invalid toml"
  | .InvalidJson _ => "invalid json"
  | .InvalidYaml _ => "invalid yaml"
  | .ConfigFormatDisabled format => "config format disabled: " ++ format
  | .UnknownConfigFormat format => "config format unknown: " ++ format
  | .MissingExtension => "missing format extension"
  | .NicknameNotSpecified => "nickname not specified"
  | .ServerNotSpecified => "server not specified"

/-- The `Display` rendering of `Error`, generated by thiserror from the
per-variant error attribute strings. -/
def Error.display : Error → String
  | .Io _ => "an io error occurred"
  | .Tls _ => "a TLS error occurred"
  | .SyncChannelClosed _ => "a sync channel closed"
  | .AsyncChannelClosed _ => "an async channel closed"
  | .OneShotCanceled _ => "a oneshot channel closed"
  | .InvalidConfig path _ => "invalid config: " ++ path
  | .InvalidMessage string _ => "invalid message: " ++ string
  | .PoisonedLog => "mutex for a logged transport was poisoned"
  | .PingTimeout => "connection reset: no ping response"
  | .UnknownCodec codec => "unknown codec: " ++ codec
  | .CodecFailed codec data => "codec " ++ codec ++ " failed: " ++ data
  | .NoUsableNick => "none of the specified nicknames were usable"
  | .StreamAlreadyConfigured => "stream has already been configured"

/-- The possible wrapped causes exposed by `Error::source`, one injection
per cause type marked with a source attribute in the Rust enum. -/
inductive ErrorSource where
  | io (e : IoError)
  | tls (e : TlsError)
  | recv (e : RecvError)
  | send (e : SendError)
  | canceled (e : Canceled)
  | config (e : ConfigError)
  | msg (e : MessageParseError)
deriving DecidableEq, Repr

/-- The `source` accessor of `Error`, generated by thiserror: it returns
the field marked with a source attribute, when the variant has one. -/
def Error.source : Error → Option ErrorSource
  | .Io e => some (.io e)
  | .Tls e => some (.tls e)
  | .SyncChannelClosed e => some (.recv e)
  | .AsyncChannelClosed e => some (.send e)
  | .OneShotCanceled e => some (.canceled e)
  | .InvalidConfig _ cause => some (.config cause)
  | .InvalidMessage _ cause => some (.msg cause)
  | .PoisonedLog => none
  | .PingTimeout => none
  | .UnknownCodec _ => none
  | .CodecFailed _ _ => none
  | .NoUsableNick => none
  | .StreamAlreadyConfigured => none

/-- The possible wrapped causes exposed by `ConfigError::source`. -/
inductive ConfigSource where
  | toml (e : TomlError)
  | json (e : JsonError)
  | yaml (e : YamlError)
deriving DecidableEq, Repr

/-- The `source` accessor of `ConfigError`, generated by thiserror. -/
def ConfigError.source : ConfigError → Option ConfigSource
  | .InvalidToml e => some (.toml e)
  | .InvalidJson e => some (.json e)
  | .InvalidYaml e => some (.yaml e)
  | .ConfigFormatDisabled _ => none
  | .UnknownConfigFormat _ => none
  | .MissingExtension => none
  | .NicknameNotSpecified => none
  | .ServerNotSpecified => none

/-- The possible wrapped causes exposed by `TomlError::source`. -/
inductive TomlSource where
  | de (e : TomlDeError)
  | ser (e : TomlSerError)
deriving DecidableEq, Repr

/-- The `source` accessor of `TomlError`, generated by thiserror. -/
def TomlError.source : TomlError → Option TomlSource
  | .Read e => some (.de e)
  | .Write e => some (.ser e)

/-- `impl From<ProtocolError> for Error` from `src/error.rs`. -/
def Error.fromProtocolError : ProtocolError → Error
  | .Io e => .Io e
  | .InvalidMessage string cause => .InvalidMessage string cause

/-- `impl From<IoError> for Error` from `src/error.rs`. -/
def Error.fromIoError (e : IoError) : Error := .Io e

/-- `impl From<native_tls::Error> for Error` from `src/error.rs`. -/
def Error.fromTlsError (e : TlsError) : Error := .Tls e

/-- `impl From<RecvError> for Error` from `src/error.rs`. -/
def Error.fromRecvError (e : RecvError) : Error := .SyncChannelClosed e

/-- `impl From<SendError> for Error` from `src/error.rs`. -/
def Error.fromSendError (e : SendError) : Error := .AsyncChannelClosed e

/-- `impl<T> From<TrySendError<T>> for Error` from `src/error.rs`. -/
def Error.fromTrySendError {T : Type} (e : TrySendError T) : Error :=
  .AsyncChannelClosed e.into_send_error

/-- `impl From<Canceled> for Error` from `src/error.rs`. -/
def Error.fromCanceled (e : Canceled) : Error := .OneShotCanceled e

end Irc

open Irc

/-- C1: a protocol-layer failure tagged as I/O converts, via the From impl
for protocol errors, to the Io variant of the top-level error carrying
exactly the same underlying error object, unchanged. -/
theorem protocol_io_converts_unchanged (e : IoError) :
    Error.fromProtocolError (ProtocolError.Io e) = Error.Io e := rfl

/-- C2: a protocol-layer invalid-message failure converts, via the From
impl for protocol errors, to the InvalidMessage variant of the top-level
error with both the raw string and the parse cause unchanged. -/
theorem protocol_invalid_message_converts_unchanged
    (s : String) (c : MessageParseError) :
    Error.fromProtocolError (ProtocolError.InvalidMessage s c)
      = Error.InvalidMessage s c := rfl

/-- C3: a bounded-channel try-send failure converts to AsyncChannelClosed
carrying only the underlying send error extracted by into_send_error; the
unsent payload is discarded, so the result does not depend on it. -/
theorem try_send_converts_discarding_payload
    (T : Type) (e : SendError) (v : T) :
    Error.fromTrySendError ⟨e, v⟩ = Error.AsyncChannelClosed e
      ∧ ∀ w : T, Error.fromTrySendError ⟨e, w⟩ = Error.fromTrySendError ⟨e, v⟩ :=
  ⟨rfl, fun _ => rfl⟩

/-- C4: each direct-wrap conversion into the top-level error — from io
errors, TLS errors, sync-channel receive errors, async-channel send errors
and oneshot cancellations — is a total function on its source type and
stores the original source value itself, unmodified, in the corresponding
variant. -/
theorem direct_wrap_conversions_preserve_cause
    (a : IoError) (b : TlsError) (r : RecvError) (s : SendError) (c : Canceled) :
    Error.fromIoError a = Error.Io a
      ∧ Error.fromTlsError b = Error.Tls b
      ∧ Error.fromRecvError r = Error.SyncChannelClosed r
      ∧ Error.fromSendError s = Error.AsyncChannelClosed s
      ∧ Error.fromCanceled c = Error.OneShotCanceled c :=
  ⟨rfl, rfl, rfl, rfl, rfl⟩

/-- C5: the config error for an unknown format with field "ini" renders as
exactly the string "config format unknown: ini". -/
theorem unknown_config_format_ini_display :
    (ConfigError.UnknownConfigFormat "ini").display
      = "config format unknown: ini" := rfl

/-- C6: an invalid-config error renders as "invalid config: " followed by
its path, and the rendering depends only on the path, not on the wrapped
configuration cause. -/
theorem invalid_config_display (p : String) (c : ConfigError) :
    (Error.InvalidConfig p c).display = "invalid config: " ++ p
      ∧ ∀ d : ConfigError,
          (Error.InvalidConfig p d).display = (Error.InvalidConfig p c).display :=
  ⟨rfl, fun _ => rfl⟩

/-- C7: the toml error wrapper has exactly two variants: every value is
either Read wrapping a deserialization error or Write wrapping a
serialization error, the two are never equal, and each exposes its own
cause kind through source, so a parse failure is never represented by
Write nor a serialization failure by Read. -/
theorem toml_error_two_variants :
    (∀ t : TomlError, (∃ d, t = TomlError.Read d) ∨ (∃ s, t = TomlError.Write s))
      ∧ (∀ (d : TomlDeError) (s : TomlSerError), TomlError.Read d ≠ TomlError.Write s)
      ∧ (∀ d : TomlDeError, (TomlError.Read d).source = some (TomlSource.de d))
      ∧ (∀ s : TomlSerError, (TomlError.Write s).source = some (TomlSource.ser s)) := by
  refine ⟨fun t => ?_, fun d s h => ?_, fun d => rfl, fun s => rfl⟩
  · cases t with
    | Read d => exact Or.inl ⟨d, rfl⟩
    | Write s => exact Or.inr ⟨s, rfl⟩
  · cases h

/-- C8: every cause-carrying variant of the top-level error and of the
config error stores its cause as a structured field that the source
accessor returns exactly, so traversal from the outer value to the inner
cause loses no information. -/
theorem cause_carrying_variants_expose_source :
    (∀ e : IoError, (Error.Io e).source = some (ErrorSource.io e))
      ∧ (∀ e : TlsError, (Error.Tls e).source = some (ErrorSource.tls e))
      ∧ (∀ e : RecvError,
          (Error.SyncChannelClosed e).source = some (ErrorSource.recv e))
      ∧ (∀ e : SendError,
          (Error.AsyncChannelClosed e).source = some (ErrorSource.send e))
      ∧ (∀ e : Canceled,
          (Error.OneShotCanceled e).source = some (ErrorSource.canceled e))
      ∧ (∀ (p : String) (c : ConfigError),
          (Error.InvalidConfig p c).source = some (ErrorSource.config c))
      ∧ (∀ (s : String) (c : MessageParseError),
          (Error.InvalidMessage s c).source = some (ErrorSource.msg c))
      ∧ (∀ t : TomlError,
          (ConfigError.InvalidToml t).source = some (ConfigSource.toml t))
      ∧ (∀ j : JsonError,
          (ConfigError.InvalidJson j).source = some (ConfigSource.json j))
      ∧ (∀ y : YamlError,
          (ConfigError.InvalidYaml y).source = some (ConfigSource.yaml y)) :=
  ⟨fun _ => rfl, fun _ => rfl, fun _ => rfl, fun _ => rfl, fun _ => rfl,
    fun _ _ => rfl, fun _ _ => rfl, fun _ => rfl, fun _ => rfl, fun _ => rfl⟩

/-- C9: rendering is deterministic: the display of a top-level error, of a
config error and of a toml error is a pure function of the value, so any
two renderings of equal values produce identical strings; there is no
other input the rendering could depend on. -/
theorem display_deterministic
    (e1 e2 : Error) (c1 c2 : ConfigError) (t1 t2 : TomlError)
    (he : e1 = e2) (hc : c1 = c2) (ht : t1 = t2) :
    e1.display = e2.display ∧ c1.display = c2.display ∧ t1.display = t2.display :=
  ⟨he ▸ rfl, hc ▸ rfl, ht ▸ rfl⟩

/-- Witness for C9 at concrete values: two renderings of the same concrete
errors agree, with the hypotheses discharged by rfl. -/
theorem display_deterministic_witness :
    Error.PingTimeout.display = Error.PingTimeout.display
      ∧ ConfigError.MissingExtension.display = ConfigError.MissingExtension.display
      ∧ (TomlError.Read ⟨"x"⟩).display = (TomlError.Read ⟨"x"⟩).display :=
  display_deterministic Error.PingTimeout Error.PingTimeout
    ConfigError.MissingExtension ConfigError.MissingExtension
    (TomlError.Read ⟨"x"⟩) (TomlError.Read ⟨"x"⟩) rfl rfl rfl

/-- C10: the ping-timeout variant renders as exactly the string
"connection reset: no ping response", wording that speaks of a connection
reset rather than naming a ping timeout. -/
theorem ping_timeout_display :
    Error.PingTimeout.display = "connection reset: no ping response" := rfl
